import Mathlib

/-!
Shallow embedding of `src/main.py` (MovieDBREST), a FastAPI CRUD service over
two sqlite-backed catalogs: `actor(id, name, surname)` and
`movies(id, title, year, actors)`.

Modelling choices, taken from the source:
* A table is a `List` of rows.  Row fields other than `id` are `Option`-valued,
  because the handlers read request fields with `params.get(...)` (which yields
  `None` when the field is missing) and the update handlers write those values
  into the row unvalidated, so a column can hold SQL `NULL`.
* SQL `=` comparison is `sqlEq`: `NULL` compares equal to nothing, matching the
  behaviour of the parameterized `WHERE name = ? AND surname = ?` queries when
  a parameter is `None`.
* Python truthiness of request fields is `falsyStr` / `falsyInt` (`not x` is
  true for `None`, `""` and `0`), matching `if not name or not surname` and
  `if not title or not year or not actors`.
* `sqlite3` assigns a fresh rowid one greater than the largest rowid in the
  table; `newRowId` models `cursor.lastrowid` after an `INSERT`.
* `cursor.rowcount` after `UPDATE`/`DELETE` is the number of rows matched,
  modelled with `countP` over the pre-state.
* An `HTTPException` is an `ApiError` (carrying the HTTP status via
  `ApiError.status`); each handler returns the response paired with the
  post-state of its table.  On every error path of the source the table is
  unchanged when the exception is raised (the duplicate-check and validation
  errors are raised before any write, and the 404 paths follow a write that
  matched zero rows).
-/

namespace MovieDB

/-- SQL `=` on nullable values: two values compare equal iff both are non-`NULL`
and equal.  `NULL = x` is never true in SQL. -/
def sqlEq {α : Type} [DecidableEq α] : Option α → Option α → Bool
  | some a, some b => decide (a = b)
  | _, _ => false

/-- Python truthiness test `not s` for an optional string: true when the field
is missing (`None`) or the empty string. -/
def falsyStr : Option String → Bool
  | none => true
  | some s => decide (s = "")

/-- Python truthiness test `not n` for an optional integer: true when the field
is missing (`None`) or zero. -/
def falsyInt : Option Int → Bool
  | none => true
  | some n => decide (n = 0)

/-- A row of the `actor` table. -/
structure ActorRow where
  id : Nat
  name : Option String
  surname : Option String
deriving DecidableEq, Repr

/-- A row of the `movies` table. -/
structure MovieRow where
  id : Nat
  title : Option String
  year : Option Int
  actors : Option String
deriving DecidableEq, Repr

/-- The request body of the actor create/update endpoints, as read by
`params.get("name")` / `params.get("surname")`. -/
structure ActorParams where
  name : Option String
  surname : Option String
deriving DecidableEq, Repr

/-- The request body of the movie create/update endpoints. -/
structure MovieParams where
  title : Option String
  year : Option Int
  actors : Option String
deriving DecidableEq, Repr

/-- The error outcomes raised by the handlers (`HTTPException`). -/
inductive ApiError where
  | invalidInput
  | conflict
  | notFound
deriving DecidableEq, Repr

/-- The HTTP status code of each error. -/
def ApiError.status : ApiError → Nat
  | .invalidInput => 400
  | .conflict => 409
  | .notFound => 404

/-- The successful response body of a batch delete: either full success
(echoing the requested ids as `deleted_ids`) or partial success (echoing
`requested_ids` and reporting `actual_deleted_count`). -/
inductive BatchResult where
  | fullSuccess (deleted_ids : List Nat)
  | partSuccess (requested_ids : List Nat) (actual_deleted_count : Nat)
deriving DecidableEq, Repr

/-- `cursor.lastrowid` after an `INSERT`: sqlite assigns one plus the largest
existing rowid (or `1` on an empty table). -/
def newRowId (ids : List Nat) : Nat := ids.foldr max 0 + 1

/-- `GET /actors/{actor_id}` (`get_single_actor`): `fetchone` on
`SELECT * FROM actor WHERE id={actor_id}`; 404 when no row matches. -/
def get_single_actor (rows : List ActorRow) (actor_id : Nat) :
    Except ApiError ActorRow :=
  match rows.find? (fun r => decide (r.id = actor_id)) with
  | none => .error .notFound
  | some r => .ok r

/-- `POST /actors` (`add_actor`): 400 when name or surname is falsy, 409 when a
row with the same `(name, surname)` exists, otherwise insert and return the
generated id. -/
def add_actor (rows : List ActorRow) (params : ActorParams) :
    (Except ApiError Nat) × List ActorRow :=
  if falsyStr params.name || falsyStr params.surname then
    (.error .invalidInput, rows)
  else if rows.any (fun r =>
      sqlEq r.name params.name && sqlEq r.surname params.surname) then
    (.error .conflict, rows)
  else
    let nid := newRowId (rows.map (·.id))
    (.ok nid, rows ++ [⟨nid, params.name, params.surname⟩])

/-- `PUT /actors/{actor_id}` (`edit_actor`): 409 when a row with a different id
matches the requested `(name, surname)`; otherwise run the `UPDATE` and fail
404 when it matched zero rows.  There is no input validation. -/
def edit_actor (rows : List ActorRow) (actor_id : Nat) (params : ActorParams) :
    (Except ApiError Unit) × List ActorRow :=
  if rows.any (fun r =>
      sqlEq r.name params.name && sqlEq r.surname params.surname &&
        decide (r.id ≠ actor_id)) then
    (.error .conflict, rows)
  else
    let newRows := rows.map (fun r =>
      if r.id = actor_id then
        { r with name := params.name, surname := params.surname }
      else r)
    if rows.countP (fun r => decide (r.id = actor_id)) = 0 then
      (.error .notFound, newRows)
    else
      (.ok (), newRows)

/-- `DELETE /actors/{actor_id}` (`del_actor`): run the `DELETE` and fail 404
when it matched zero rows. -/
def del_actor (rows : List ActorRow) (actor_id : Nat) :
    (Except ApiError Unit) × List ActorRow :=
  let newRows := rows.filter (fun r => !decide (r.id = actor_id))
  if rows.countP (fun r => decide (r.id = actor_id)) = 0 then
    (.error .notFound, newRows)
  else
    (.ok (), newRows)

/-- `DELETE /actors/batch` (`del_actors`): 400 on an empty id list; otherwise
`DELETE ... WHERE id IN (...)`, then report partial success when
`rowcount < len(actor_ids)` and full success otherwise. -/
def del_actors (rows : List ActorRow) (actor_ids : List Nat) :
    (Except ApiError BatchResult) × List ActorRow :=
  if actor_ids.isEmpty then
    (.error .invalidInput, rows)
  else
    let newRows := rows.filter (fun r => !decide (r.id ∈ actor_ids))
    let rows_deleted := rows.countP (fun r => decide (r.id ∈ actor_ids))
    if rows_deleted < actor_ids.length then
      (.ok (.partSuccess actor_ids rows_deleted), newRows)
    else
      (.ok (.fullSuccess actor_ids), newRows)

/-- `POST /movies` (`add_movie`): 400 when title, year or actors is falsy
(Python truthiness, so the integer year `0` is rejected), 409 when a row with
the same `(title, year)` exists, otherwise insert and return the generated
id. -/
def add_movie (rows : List MovieRow) (params : MovieParams) :
    (Except ApiError Nat) × List MovieRow :=
  if falsyStr params.title || falsyInt params.year || falsyStr params.actors then
    (.error .invalidInput, rows)
  else if rows.any (fun r =>
      sqlEq r.title params.title && sqlEq r.year params.year) then
    (.error .conflict, rows)
  else
    let nid := newRowId (rows.map (·.id))
    (.ok nid, rows ++ [⟨nid, params.title, params.year, params.actors⟩])

/-- `PUT /movies/{movie_id}` (`edit_movie`): 409 when a row with a different id
matches the requested `(title, year)`; otherwise run the `UPDATE` and fail 404
when it matched zero rows.  There is no input validation. -/
def edit_movie (rows : List MovieRow) (movie_id : Nat) (params : MovieParams) :
    (Except ApiError Unit) × List MovieRow :=
  if rows.any (fun r =>
      sqlEq r.title params.title && sqlEq r.year params.year &&
        decide (r.id ≠ movie_id)) then
    (.error .conflict, rows)
  else
    let newRows := rows.map (fun r =>
      if r.id = movie_id then
        { r with title := params.title, year := params.year,
                 actors := params.actors }
      else r)
    if rows.countP (fun r => decide (r.id = movie_id)) = 0 then
      (.error .notFound, newRows)
    else
      (.ok (), newRows)

/-- `DELETE /movies/{movie_id}` (`del_movie`). -/
def del_movie (rows : List MovieRow) (movie_id : Nat) :
    (Except ApiError Unit) × List MovieRow :=
  let newRows := rows.filter (fun r => !decide (r.id = movie_id))
  if rows.countP (fun r => decide (r.id = movie_id)) = 0 then
    (.error .notFound, newRows)
  else
    (.ok (), newRows)

/-- `DELETE /movies/batch` (`del_movies`). -/
def del_movies (rows : List MovieRow) (movie_ids : List Nat) :
    (Except ApiError BatchResult) × List MovieRow :=
  if movie_ids.isEmpty then
    (.error .invalidInput, rows)
  else
    let newRows := rows.filter (fun r => !decide (r.id ∈ movie_ids))
    let rows_deleted := rows.countP (fun r => decide (r.id ∈ movie_ids))
    if rows_deleted < movie_ids.length then
      (.ok (.partSuccess movie_ids rows_deleted), newRows)
    else
      (.ok (.fullSuccess movie_ids), newRows)

/-- Two actor rows collide on the uniqueness key under SQL comparison
semantics: their `(name, surname)` pairs match with `sqlEq`. -/
def actorKeyMatch (a b : ActorRow) : Bool :=
  sqlEq a.name b.name && sqlEq a.surname b.surname

/-- Two movie rows collide on the uniqueness key under SQL comparison
semantics: their `(title, year)` pairs match with `sqlEq`. -/
def movieKeyMatch (a b : MovieRow) : Bool :=
  sqlEq a.title b.title && sqlEq a.year b.year

/-- The actor uniqueness invariant under SQL comparison semantics: no two rows
have matching `(name, surname)` keys (a `NULL` field never matches). -/
def actorsUnique (rows : List ActorRow) : Prop :=
  rows.Pairwise (fun a b => ¬ actorKeyMatch a b)

/-- The movie uniqueness invariant under SQL comparison semantics. -/
def moviesUnique (rows : List MovieRow) : Prop :=
  rows.Pairwise (fun a b => ¬ movieKeyMatch a b)

/-- The actor uniqueness invariant read literally from the spec's words ("no
two actors share the same (name, surname) pair"), with plain equality of the
possibly-`NULL` fields. -/
def actorsPlainUnique (rows : List ActorRow) : Prop :=
  rows.Pairwise (fun a b => ¬ (a.name = b.name ∧ a.surname = b.surname))

instance {ε α : Type} [DecidableEq ε] [DecidableEq α] :
    DecidableEq (Except ε α) := fun x y =>
  match x, y with
  | .ok a, .ok b =>
    if h : a = b then .isTrue (by rw [h])
    else .isFalse (by intro hc; cases hc; exact h rfl)
  | .ok _, .error _ => .isFalse (by intro hc; cases hc)
  | .error _, .ok _ => .isFalse (by intro hc; cases hc)
  | .error e, .error f =>
    if h : e = f then .isTrue (by rw [h])
    else .isFalse (by intro hc; cases hc; exact h rfl)

/-! ### Helper lemmas -/

theorem sqlEq_comm {α : Type} [DecidableEq α] (a b : Option α) :
    sqlEq a b = sqlEq b a := by
  cases a <;> cases b <;> simp [sqlEq, eq_comm]

theorem sqlEq_some_right {α : Type} [DecidableEq α] (o : Option α) (a : α) :
    sqlEq o (some a) = true ↔ o = some a := by
  cases o <;> simp [sqlEq]

theorem le_foldr_max (l : List Nat) : ∀ x ∈ l, x ≤ l.foldr max 0 := by
  induction l with
  | nil => intro x hx; cases hx
  | cons a t ih =>
    intro x hx
    rcases List.mem_cons.mp hx with rfl | hx
    · exact le_max_left _ _
    · exact (ih x hx).trans (le_max_right _ _)

theorem lt_newRowId (ids : List Nat) : ∀ x ∈ ids, x < newRowId ids :=
  fun x hx => Nat.lt_succ_of_le (le_foldr_max ids x hx)

/-- If an update rewrites exactly the rows whose id is `k` to the single value
`v`, leaves other rows unchanged, `v` collides with no row of a different id,
and row ids are distinct, then pairwise non-collision is preserved. -/
theorem pairwise_not_map_update {ρ : Type} (R : ρ → ρ → Prop) (getId : ρ → Nat)
    (f : ρ → ρ) (k : Nat) (v : ρ)
    (hfix : ∀ r, getId r ≠ k → f r = r)
    (hset : ∀ r, getId r = k → f r = v) :
    ∀ rows : List ρ, (rows.map getId).Nodup →
      rows.Pairwise (fun a b => ¬ R a b) →
      (∀ r ∈ rows, getId r ≠ k → ¬ R v r ∧ ¬ R r v) →
      (rows.map f).Pairwise (fun a b => ¬ R a b) := by
  intro rows
  induction rows with
  | nil => intro _ _ _; simp
  | cons r rest ih =>
    intro hid hpw hnoc
    simp only [List.map_cons, List.nodup_cons] at hid
    obtain ⟨hrni, hidr⟩ := hid
    rcases List.pairwise_cons.mp hpw with ⟨hhead, hpwr⟩
    refine List.pairwise_cons.mpr
      ⟨?_, ih hidr hpwr (fun x hx hxk => hnoc x (List.mem_cons_of_mem _ hx) hxk)⟩
    intro b hb
    obtain ⟨b0, hb0, rfl⟩ := List.mem_map.mp hb
    by_cases hrk : getId r = k
    · have hb0k : getId b0 ≠ k := by
        intro hk
        have hmem : getId b0 ∈ rest.map getId := List.mem_map_of_mem getId hb0
        rw [hk, ← hrk] at hmem
        exact hrni hmem
      rw [hset r hrk, hfix b0 hb0k]
      exact (hnoc b0 (List.mem_cons_of_mem _ hb0) hb0k).1
    · rw [hfix r hrk]
      by_cases hbk : getId b0 = k
      · rw [hset b0 hbk]
        exact (hnoc r (List.mem_cons_self _ _) hrk).2
      · rw [hfix b0 hbk]
        exact hhead b0 hb0

/-- On a duplicate-free list `A`, the number of elements lying in `B` is the
size of the intersection of the corresponding finite sets. -/
theorem countP_mem_eq_card_inter (A B : List Nat) (hA : A.Nodup) :
    A.countP (fun a => decide (a ∈ B)) = (A.toFinset ∩ B.toFinset).card := by
  rw [List.countP_eq_length_filter,
    ← List.toFinset_card_of_nodup (List.Nodup.filter _ hA)]
  congr 1
  ext x
  simp [List.mem_filter]

theorem countP_mem_le_length (A B : List Nat) (hA : A.Nodup) (hB : B.Nodup) :
    A.countP (fun a => decide (a ∈ B)) ≤ B.length := by
  rw [countP_mem_eq_card_inter A B hA, ← List.toFinset_card_of_nodup hB]
  exact Finset.card_le_card Finset.inter_subset_right

theorem countP_mem_eq_length_iff (A B : List Nat) (hA : A.Nodup) (hB : B.Nodup) :
    A.countP (fun a => decide (a ∈ B)) = B.length ↔ ∀ b ∈ B, b ∈ A := by
  rw [countP_mem_eq_card_inter A B hA, ← List.toFinset_card_of_nodup hB]
  constructor
  · intro h b hb
    have hsub : A.toFinset ∩ B.toFinset = B.toFinset :=
      Finset.eq_of_subset_of_card_le Finset.inter_subset_right h.ge
    have hmem : b ∈ A.toFinset ∩ B.toFinset := by
      rw [hsub]; exact List.mem_toFinset.mpr hb
    exact List.mem_toFinset.mp (Finset.mem_inter.mp hmem).1
  · intro h
    congr 1
    ext x
    simp only [Finset.mem_inter, List.mem_toFinset]
    exact ⟨fun hx => hx.2, fun hx => ⟨h x hx, hx⟩⟩

end MovieDB

namespace MovieDB

/-! ### Claim theorems -/

/-- C6: a create request with an empty or missing name, or an empty or missing
surname, fails with 400 InvalidInput; the check precedes the duplicate check,
so no such request can yield 409, and the store is left unchanged. -/
theorem c6_create_requires_nonempty_fields (rows : List ActorRow)
    (p : ActorParams) (h : falsyStr p.name ∨ falsyStr p.surname) :
    add_actor rows p = (.error .invalidInput, rows) ∧
    ApiError.invalidInput.status = 400 := by
  refine ⟨?_, rfl⟩
  unfold add_actor
  rcases h with h | h <;> simp [h]

/-- Witness for C6 at a concrete input: creating with an empty name in an
empty store (which would otherwise raise no conflict) yields 400 and leaves
the store unchanged. -/
theorem c6_create_requires_nonempty_fields_witness :
    (falsyStr (some "") ∨ falsyStr (some "Smith")) ∧
    add_actor [] ⟨some "", some "Smith"⟩ = (.error .invalidInput, []) ∧
    ApiError.invalidInput.status = 400 := by
  refine ⟨Or.inl (by decide), ?_⟩
  exact c6_create_requires_nonempty_fields [] ⟨some "", some "Smith"⟩
    (Or.inl (by decide))

/-- C8: a batch delete with an empty id list fails with 400 InvalidInput and
leaves the store unchanged, for both the actors and the movies catalog. -/
theorem c8_batch_delete_empty_list (arows : List ActorRow)
    (mrows : List MovieRow) :
    del_actors arows [] = (.error .invalidInput, arows) ∧
    del_movies mrows [] = (.error .invalidInput, mrows) ∧
    ApiError.invalidInput.status = 400 :=
  ⟨rfl, rfl, rfl⟩

/-- C10: movie creation rejects with 400 every request with a falsy title,
year or actors field; in particular the valid integer year `0` is falsy in
Python, so such a create always yields 400 and inserts nothing. -/
theorem c10_movie_create_rejects_falsy (rows : List MovieRow)
    (p : MovieParams)
    (h : falsyStr p.title ∨ falsyInt p.year ∨ falsyStr p.actors) :
    add_movie rows p = (.error .invalidInput, rows) ∧
    (∀ (rows2 : List MovieRow) (t a : Option String),
      add_movie rows2 ⟨t, some 0, a⟩ = (.error .invalidInput, rows2)) ∧
    ApiError.invalidInput.status = 400 := by
  refine ⟨?_, ?_, rfl⟩
  · unfold add_movie
    rcases h with h | h | h <;> simp [h]
  · intro rows2 t a
    unfold add_movie
    simp [falsyInt]

/-- Witness for C10 at a concrete input: a create with year `0` and otherwise
valid fields yields 400 and inserts nothing. -/
theorem c10_movie_create_rejects_falsy_witness :
    falsyInt (some 0) ∧
    add_movie [] ⟨some "Heat", some 0, some "Pacino"⟩ =
      (.error .invalidInput, []) := by
  refine ⟨by decide, ?_⟩
  exact (c10_movie_create_rejects_falsy [] ⟨some "Heat", some 0, some "Pacino"⟩
    (Or.inr (Or.inl (by decide)))).1

/-- C2 counterexample: id 2 has no row, yet updating it with a body whose
(name, surname) pair is owned by the existing actor 1 yields 409 Conflict,
not the 404 the claim demands for every request body. -/
theorem c2_counterexample :
    (∀ r ∈ [ActorRow.mk 1 (some "Al") (some "Pacino")], r.id ≠ 2) ∧
    (edit_actor [⟨1, some "Al", some "Pacino"⟩] 2
      ⟨some "Al", some "Pacino"⟩).1 = .error .conflict ∧
    (edit_actor [⟨1, some "Al", some "Pacino"⟩] 2
      ⟨some "Al", some "Pacino"⟩).1 ≠ .error .notFound := by
  refine ⟨by decide, by rfl, by decide⟩

/-- C2 (amended): for an id with no matching row, a delete request fails with
404, and an update request fails with 404 for every request body whose
(name, surname) pair is not owned by an existing actor; when the pair is
owned by an existing actor the update fails with 409 instead, because the
conflict check runs before the row-count check. -/
theorem c2_missing_id_update_delete (rows : List ActorRow) (actor_id : Nat)
    (p : ActorParams) (habs : ∀ r ∈ rows, r.id ≠ actor_id) :
    ((∀ r ∈ rows, ¬ (sqlEq r.name p.name ∧ sqlEq r.surname p.surname)) →
      (edit_actor rows actor_id p).1 = .error .notFound) ∧
    ((∃ r ∈ rows, sqlEq r.name p.name ∧ sqlEq r.surname p.surname) →
      (edit_actor rows actor_id p).1 = .error .conflict) ∧
    (del_actor rows actor_id).1 = .error .notFound ∧
    ApiError.notFound.status = 404 := by
  have hc0 : rows.countP (fun r => decide (r.id = actor_id)) = 0 :=
    List.countP_eq_zero.mpr (fun r hr => by simpa using habs r hr)
  refine ⟨?_, ?_, ?_, rfl⟩
  · intro h1
    have hnex : ¬ ∃ x ∈ rows,
        (sqlEq x.name p.name = true ∧ sqlEq x.surname p.surname = true) ∧
          ¬ x.id = actor_id := by
      rintro ⟨x, hx, ⟨hn, hs⟩, -⟩
      exact h1 x hx ⟨hn, hs⟩
    simp only [edit_actor]
    rw [if_neg (by simpa using hnex), if_pos hc0]
  · intro h2
    obtain ⟨r, hr, hn, hs⟩ := h2
    have hex : ∃ x ∈ rows,
        (sqlEq x.name p.name = true ∧ sqlEq x.surname p.surname = true) ∧
          ¬ x.id = actor_id :=
      ⟨r, hr, ⟨hn, hs⟩, habs r hr⟩
    simp [edit_actor, hex]
  · simp only [del_actor]
    rw [if_pos hc0]

/-- Witness for C2 (amended) at a concrete input: id 2 has no row; updating it
with a fresh pair fails 404 and deleting it fails 404. -/
theorem c2_missing_id_update_delete_witness :
    (∀ r ∈ [ActorRow.mk 1 (some "Al") (some "Pacino")], r.id ≠ 2) ∧
    (edit_actor [⟨1, some "Al", some "Pacino"⟩] 2
      ⟨some "Robert", some "DeNiro"⟩).1 = .error .notFound ∧
    (del_actor [⟨1, some "Al", some "Pacino"⟩] 2).1 = .error .notFound := by
  refine ⟨by decide, ?_, ?_⟩
  · exact (c2_missing_id_update_delete [⟨1, some "Al", some "Pacino"⟩] 2
      ⟨some "Robert", some "DeNiro"⟩ (by decide)).1 (by decide)
  · exact (c2_missing_id_update_delete [⟨1, some "Al", some "Pacino"⟩] 2
      ⟨some "Robert", some "DeNiro"⟩ (by decide)).2.2.1

/-- C4: for an existing actor id, an update fails with 409 iff some actor with
a different id owns the requested (name, surname) pair (SQL row matching); in
particular, under the uniqueness invariant, updating an actor to the pair it
already owns never yields 409. -/
theorem c4_update_conflict_iff (rows : List ActorRow) (actor_id : Nat)
    (p : ActorParams) (_hex : ∃ r ∈ rows, r.id = actor_id) :
    ((edit_actor rows actor_id p).1 = .error .conflict ↔
      ∃ r ∈ rows, r.id ≠ actor_id ∧
        sqlEq r.name p.name ∧ sqlEq r.surname p.surname) ∧
    (actorsUnique rows → ∀ r ∈ rows, r.id = actor_id →
      p.name = r.name → p.surname = r.surname →
      (edit_actor rows actor_id p).1 ≠ .error .conflict) ∧
    ApiError.conflict.status = 409 := by
  have hiff : (edit_actor rows actor_id p).1 = .error .conflict ↔
      ∃ r ∈ rows, r.id ≠ actor_id ∧
        sqlEq r.name p.name ∧ sqlEq r.surname p.surname := by
    by_cases hany : ∃ x ∈ rows,
        (sqlEq x.name p.name = true ∧ sqlEq x.surname p.surname = true) ∧
          ¬ x.id = actor_id
    · obtain ⟨r, hr, ⟨hn, hs⟩, hne⟩ := hany
      have hex2 : ∃ x ∈ rows,
          (sqlEq x.name p.name = true ∧ sqlEq x.surname p.surname = true) ∧
            ¬ x.id = actor_id := ⟨r, hr, ⟨hn, hs⟩, hne⟩
      exact ⟨fun _ => ⟨r, hr, hne, hn, hs⟩,
             fun _ => by simp [edit_actor, hex2]⟩
    · constructor
      · intro hres
        exfalso
        simp only [edit_actor] at hres
        rw [if_neg (by simpa using hany)] at hres
        split at hres <;> simp at hres
      · rintro ⟨r, hr, hne, hn, hs⟩
        exact absurd ⟨r, hr, ⟨hn, hs⟩, hne⟩ hany
  have hkm_comm : ∀ a b : ActorRow, actorKeyMatch a b = actorKeyMatch b a := by
    intro a b
    unfold actorKeyMatch
    rw [sqlEq_comm a.name b.name, sqlEq_comm a.surname b.surname]
  refine ⟨hiff, ?_, rfl⟩
  intro hU r hr hrid hpn hps hconf
  obtain ⟨r2, hr2, hne2, hn2, hs2⟩ := hiff.mp hconf
  have hU' : rows.Pairwise (fun a b => ¬ actorKeyMatch a b = true) := hU
  have hsymm : Symmetric (fun a b : ActorRow => ¬ actorKeyMatch a b = true) :=
    fun a b hab hba => hab (by rw [hkm_comm a b]; exact hba)
  have hkey : actorKeyMatch r2 r = true := by
    unfold actorKeyMatch
    rw [hpn] at hn2
    rw [hps] at hs2
    simp [hn2, hs2]
  have hner : r2 ≠ r := by
    intro he; rw [he] at hne2; exact hne2 hrid
  exact (List.Pairwise.forall hsymm hU' hr2 hr hner) hkey

/-- Witness for C4 at a concrete input: actor 1 exists; updating it to the
pair owned by actor 2 yields 409, and updating it to its own pair does not. -/
theorem c4_update_conflict_iff_witness :
    (∃ r ∈ [ActorRow.mk 1 (some "Al") (some "Pacino"),
            ActorRow.mk 2 (some "Robert") (some "DeNiro")], r.id = 1) ∧
    (edit_actor [⟨1, some "Al", some "Pacino"⟩, ⟨2, some "Robert", some "DeNiro"⟩]
      1 ⟨some "Robert", some "DeNiro"⟩).1 = .error .conflict ∧
    (edit_actor [⟨1, some "Al", some "Pacino"⟩, ⟨2, some "Robert", some "DeNiro"⟩]
      1 ⟨some "Al", some "Pacino"⟩).1 ≠ .error .conflict := by
  refine ⟨by decide, ?_, ?_⟩
  · exact (c4_update_conflict_iff
      [⟨1, some "Al", some "Pacino"⟩, ⟨2, some "Robert", some "DeNiro"⟩] 1
      ⟨some "Robert", some "DeNiro"⟩ (by decide)).1.mpr
      ⟨⟨2, some "Robert", some "DeNiro"⟩, by decide, by decide, by decide, by decide⟩
  · exact (c4_update_conflict_iff
      [⟨1, some "Al", some "Pacino"⟩, ⟨2, some "Robert", some "DeNiro"⟩] 1
      ⟨some "Al", some "Pacino"⟩ (by decide)).2.1
      (by unfold actorsUnique; decide) ⟨1, some "Al", some "Pacino"⟩
      (by decide) (by decide) (by decide) (by decide)

/-- C5: creating the same valid (name, surname) twice in sequence, starting
from a store that does not yet contain the pair, yields one success returning
the generated id of the inserted row followed by one 409 Conflict, and the
conflicting request changes nothing. -/
theorem c5_create_twice (rows : List ActorRow) (name surname : String)
    (hn : name ≠ "") (hs : surname ≠ "")
    (hfresh : ∀ r ∈ rows, ¬ (r.name = some name ∧ r.surname = some surname)) :
    add_actor rows ⟨some name, some surname⟩ =
      (.ok (newRowId (rows.map (·.id))),
       rows ++ [⟨newRowId (rows.map (·.id)), some name, some surname⟩]) ∧
    (add_actor (rows ++ [⟨newRowId (rows.map (·.id)), some name, some surname⟩])
      ⟨some name, some surname⟩).1 = .error .conflict ∧
    (add_actor (rows ++ [⟨newRowId (rows.map (·.id)), some name, some surname⟩])
      ⟨some name, some surname⟩).2 =
      rows ++ [⟨newRowId (rows.map (·.id)), some name, some surname⟩] ∧
    ApiError.conflict.status = 409 := by
  have hfal : (falsyStr (some name) || falsyStr (some surname)) = false := by
    simp [falsyStr, hn, hs]
  have hany1 : rows.any (fun r =>
      sqlEq r.name (some name) && sqlEq r.surname (some surname)) = false := by
    rw [List.any_eq_false]
    intro r hr
    simp only [Bool.and_eq_true, sqlEq_some_right]
    rintro ⟨h1, h2⟩
    exact hfresh r hr ⟨h1, h2⟩
  have hany2 : (rows ++ [ActorRow.mk (newRowId (rows.map (·.id)))
      (some name) (some surname)]).any (fun r =>
      sqlEq r.name (some name) && sqlEq r.surname (some surname)) = true := by
    rw [List.any_eq_true]
    refine ⟨⟨newRowId (rows.map (·.id)), some name, some surname⟩,
      List.mem_append_right _ (List.mem_singleton.mpr rfl), ?_⟩
    simp [sqlEq]
  refine ⟨?_, ?_, ?_, rfl⟩
  · simp [add_actor, hfal, hany1]
  · simp [add_actor, hfal, hany2]
  · simp [add_actor, hfal, hany2]

/-- Witness for C5 at a concrete input: creating ("Al", "Pacino") twice in an
empty store succeeds with id 1, then conflicts. -/
theorem c5_create_twice_witness :
    ("Al" : String) ≠ "" ∧
    add_actor [] ⟨some "Al", some "Pacino"⟩ =
      (.ok 1, [⟨1, some "Al", some "Pacino"⟩]) ∧
    (add_actor [⟨1, some "Al", some "Pacino"⟩] ⟨some "Al", some "Pacino"⟩).1 =
      .error .conflict := by
  have h := c5_create_twice [] "Al" "Pacino" (by decide) (by decide)
    (by intro r hr; cases hr)
  exact ⟨by decide, h.1, h.2.1⟩

/-- A create that returned `.ok` took the insert path: the returned id is the
freshly generated rowid and the new row is appended. -/
theorem add_actor_ok (rows : List ActorRow) (p : ActorParams) (nid : Nat)
    (rows2 : List ActorRow) (h : add_actor rows p = (.ok nid, rows2)) :
    nid = newRowId (rows.map (·.id)) ∧
    rows2 = rows ++ [⟨newRowId (rows.map (·.id)), p.name, p.surname⟩] := by
  unfold add_actor at h
  split at h
  · exact Except.noConfusion (congrArg Prod.fst h)
  · split at h
    · exact Except.noConfusion (congrArg Prod.fst h)
    · have h1 : Except.ok (ε := ApiError) (newRowId (rows.map (·.id))) =
          .ok nid := congrArg Prod.fst h
      have h2 : rows ++ [ActorRow.mk (newRowId (rows.map (·.id)))
          p.name p.surname] = rows2 := congrArg Prod.snd h
      injection h1 with h1
      exact ⟨h1.symm, h2.symm⟩

/-- C7: getting an id with no matching row yields 404, and after a successful
create of (name, surname), getting the id returned by the create yields 200
with exactly the created fields. -/
theorem c7_get_semantics (rows : List ActorRow) (actor_id : Nat)
    (name surname : String) (nid : Nat) (rows2 : List ActorRow)
    (habs : ∀ r ∈ rows, r.id ≠ actor_id)
    (hadd : add_actor rows ⟨some name, some surname⟩ = (.ok nid, rows2)) :
    get_single_actor rows actor_id = .error .notFound ∧
    get_single_actor rows2 nid = .ok ⟨nid, some name, some surname⟩ ∧
    ApiError.notFound.status = 404 := by
  refine ⟨?_, ?_, rfl⟩
  · unfold get_single_actor
    rw [List.find?_eq_none.mpr (fun r hr => by simpa using habs r hr)]
  · obtain ⟨hnid, hrows2⟩ := add_actor_ok rows ⟨some name, some surname⟩ nid rows2 hadd
    subst hnid
    subst hrows2
    unfold get_single_actor
    rw [List.find?_append,
      List.find?_eq_none.mpr (fun r hr => by
        simp only [decide_eq_true_eq]
        exact Nat.ne_of_lt (lt_newRowId _ _ (List.mem_map_of_mem _ hr)))]
    simp

/-- Witness for C7 at a concrete input: id 2 is absent, creating
("Robert", "DeNiro") returns id 2, and getting id 2 afterwards returns the
created fields. -/
theorem c7_get_semantics_witness :
    (∀ r ∈ [ActorRow.mk 1 (some "Al") (some "Pacino")], r.id ≠ 2) ∧
    add_actor [⟨1, some "Al", some "Pacino"⟩] ⟨some "Robert", some "DeNiro"⟩ =
      (.ok 2, [⟨1, some "Al", some "Pacino"⟩, ⟨2, some "Robert", some "DeNiro"⟩]) ∧
    get_single_actor [⟨1, some "Al", some "Pacino"⟩] 2 = .error .notFound ∧
    get_single_actor
      [⟨1, some "Al", some "Pacino"⟩, ⟨2, some "Robert", some "DeNiro"⟩] 2 =
      .ok ⟨2, some "Robert", some "DeNiro"⟩ := by
  have h := c7_get_semantics [⟨1, some "Al", some "Pacino"⟩] 2 "Robert" "DeNiro"
    2 [⟨1, some "Al", some "Pacino"⟩, ⟨2, some "Robert", some "DeNiro"⟩]
    (by decide) (by rfl)
  exact ⟨by decide, by rfl, h.1, h.2.1⟩

/-- C9: the update handlers perform no InvalidInput validation: even with
missing or empty fields the result is never 400, and when the id exists and
the duplicate check finds no conflict the handler succeeds and writes the
missing/empty values into the row. -/
theorem c9_update_no_validation (arows : List ActorRow) (mrows : List MovieRow)
    (actor_id movie_id : Nat) (p : ActorParams) (mp : MovieParams)
    (_hp : falsyStr p.name ∨ falsyStr p.surname)
    (_hmp : falsyStr mp.title ∨ falsyInt mp.year ∨ falsyStr mp.actors) :
    (edit_actor arows actor_id p).1 ≠ .error .invalidInput ∧
    ((∀ r ∈ arows, ¬ (sqlEq r.name p.name = true ∧
        sqlEq r.surname p.surname = true ∧ ¬ r.id = actor_id)) →
      (∃ r ∈ arows, r.id = actor_id) →
      edit_actor arows actor_id p =
        (.ok (), arows.map (fun r => if r.id = actor_id then
          { r with name := p.name, surname := p.surname } else r))) ∧
    (edit_movie mrows movie_id mp).1 ≠ .error .invalidInput ∧
    ((∀ r ∈ mrows, ¬ (sqlEq r.title mp.title = true ∧
        sqlEq r.year mp.year = true ∧ ¬ r.id = movie_id)) →
      (∃ r ∈ mrows, r.id = movie_id) →
      edit_movie mrows movie_id mp =
        (.ok (), mrows.map (fun r => if r.id = movie_id then
          { r with title := mp.title, year := mp.year, actors := mp.actors }
          else r))) := by
  refine ⟨?_, ?_, ?_, ?_⟩
  · unfold edit_actor
    split
    · exact fun h => ApiError.noConfusion (Except.error.inj h)
    · split
      · exact fun h => ApiError.noConfusion (Except.error.inj h)
      · exact fun h => Except.noConfusion h
  · intro hnc hex
    have hnex : ¬ ∃ x ∈ arows,
        (sqlEq x.name p.name = true ∧ sqlEq x.surname p.surname = true) ∧
          ¬ x.id = actor_id := by
      rintro ⟨x, hx, ⟨hn, hs⟩, hne⟩
      exact hnc x hx ⟨hn, hs, hne⟩
    have hcne : ¬ arows.countP (fun r => decide (r.id = actor_id)) = 0 := by
      rw [List.countP_eq_zero]
      push_neg
      obtain ⟨r, hr, hrk⟩ := hex
      exact ⟨r, hr, by simpa using hrk⟩
    simp only [edit_actor]
    rw [if_neg (by simpa using hnex), if_neg hcne]
  · unfold edit_movie
    split
    · exact fun h => ApiError.noConfusion (Except.error.inj h)
    · split
      · exact fun h => ApiError.noConfusion (Except.error.inj h)
      · exact fun h => Except.noConfusion h
  · intro hnc hex
    have hnex : ¬ ∃ x ∈ mrows,
        (sqlEq x.title mp.title = true ∧ sqlEq x.year mp.year = true) ∧
          ¬ x.id = movie_id := by
      rintro ⟨x, hx, ⟨hn, hs⟩, hne⟩
      exact hnc x hx ⟨hn, hs, hne⟩
    have hcne : ¬ mrows.countP (fun r => decide (r.id = movie_id)) = 0 := by
      rw [List.countP_eq_zero]
      push_neg
      obtain ⟨r, hr, hrk⟩ := hex
      exact ⟨r, hr, by simpa using hrk⟩
    simp only [edit_movie]
    rw [if_neg (by simpa using hnex), if_neg hcne]

/-- Witness for C9 at a concrete input: an update with every field missing is
not rejected; it succeeds and writes NULL into the row's fields, for both
catalogs. -/
theorem c9_update_no_validation_witness :
    falsyStr (none : Option String) ∧
    edit_actor [⟨1, some "Al", some "Pacino"⟩] 1 ⟨none, none⟩ =
      (.ok (), [⟨1, none, none⟩]) ∧
    edit_movie [⟨1, some "Heat", some 1995, some "DeNiro"⟩] 1 ⟨none, none, none⟩ =
      (.ok (), [⟨1, none, none, none⟩]) := by
  have h := c9_update_no_validation [⟨1, some "Al", some "Pacino"⟩]
    [⟨1, some "Heat", some 1995, some "DeNiro"⟩] 1 1 ⟨none, none⟩
    ⟨none, none, none⟩ (Or.inl (by decide)) (Or.inl (by decide))
  refine ⟨by decide, ?_, ?_⟩
  · exact (h.2.1 (by decide) (by decide)).trans (by rfl)
  · exact (h.2.2.2 (by decide) (by decide)).trans (by rfl)

/-- The post-state of an actor update: unchanged on conflict, otherwise the
row with the target id is overwritten with the request fields; in the latter
case no row matched the requested key with a different id. -/
theorem edit_actor_snd (rows : List ActorRow) (k : Nat) (p : ActorParams) :
    (edit_actor rows k p).2 = rows ∨
    ((∀ r ∈ rows, ¬ (sqlEq r.name p.name = true ∧
        sqlEq r.surname p.surname = true ∧ ¬ r.id = k)) ∧
     (edit_actor rows k p).2 = rows.map (fun r =>
       if r.id = k then { r with name := p.name, surname := p.surname }
       else r)) := by
  simp only [edit_actor]
  split
  · exact Or.inl rfl
  · rename_i hany
    have hall : ∀ r ∈ rows, ¬ (sqlEq r.name p.name = true ∧
        sqlEq r.surname p.surname = true ∧ ¬ r.id = k) := by
      intro r hr hcon
      exact hany (List.any_eq_true.mpr
        ⟨r, hr, by simp [hcon.1, hcon.2.1, hcon.2.2]⟩)
    split <;> exact Or.inr ⟨hall, rfl⟩

/-- The post-state of a movie update, as for `edit_actor_snd`. -/
theorem edit_movie_snd (rows : List MovieRow) (k : Nat) (p : MovieParams) :
    (edit_movie rows k p).2 = rows ∨
    ((∀ r ∈ rows, ¬ (sqlEq r.title p.title = true ∧
        sqlEq r.year p.year = true ∧ ¬ r.id = k)) ∧
     (edit_movie rows k p).2 = rows.map (fun r =>
       if r.id = k then { r with title := p.title, year := p.year,
                                 actors := p.actors }
       else r)) := by
  simp only [edit_movie]
  split
  · exact Or.inl rfl
  · rename_i hany
    have hall : ∀ r ∈ rows, ¬ (sqlEq r.title p.title = true ∧
        sqlEq r.year p.year = true ∧ ¬ r.id = k) := by
      intro r hr hcon
      exact hany (List.any_eq_true.mpr
        ⟨r, hr, by simp [hcon.1, hcon.2.1, hcon.2.2]⟩)
    split <;> exact Or.inr ⟨hall, rfl⟩

/-- The post-state of an actor create: unchanged on error, otherwise the new
row is appended and no existing row matched the requested key. -/
theorem add_actor_snd (rows : List ActorRow) (p : ActorParams) :
    (add_actor rows p).2 = rows ∨
    ((∀ r ∈ rows, ¬ (sqlEq r.name p.name = true ∧
        sqlEq r.surname p.surname = true)) ∧
     (add_actor rows p).2 =
       rows ++ [⟨newRowId (rows.map (·.id)), p.name, p.surname⟩]) := by
  simp only [add_actor]
  split
  · exact Or.inl rfl
  · split
    · exact Or.inl rfl
    · rename_i hany
      refine Or.inr ⟨?_, rfl⟩
      intro r hr hcon
      exact hany (List.any_eq_true.mpr ⟨r, hr, by simp [hcon.1, hcon.2]⟩)

/-- The post-state of a movie create, as for `add_actor_snd`. -/
theorem add_movie_snd (rows : List MovieRow) (p : MovieParams) :
    (add_movie rows p).2 = rows ∨
    ((∀ r ∈ rows, ¬ (sqlEq r.title p.title = true ∧
        sqlEq r.year p.year = true)) ∧
     (add_movie rows p).2 =
       rows ++ [⟨newRowId (rows.map (·.id)), p.title, p.year, p.actors⟩]) := by
  simp only [add_movie]
  split
  · exact Or.inl rfl
  · split
    · exact Or.inl rfl
    · rename_i hany
      refine Or.inr ⟨?_, rfl⟩
      intro r hr hcon
      exact hany (List.any_eq_true.mpr ⟨r, hr, by simp [hcon.1, hcon.2]⟩)

theorem add_actor_preserves_unique (rows : List ActorRow) (p : ActorParams)
    (h : actorsUnique rows) : actorsUnique (add_actor rows p).2 := by
  rcases add_actor_snd rows p with h2 | ⟨hnc, h2⟩
  · rw [h2]; exact h
  · rw [h2]
    unfold actorsUnique at h ⊢
    rw [List.pairwise_append]
    refine ⟨h, by simp, ?_⟩
    intro a ha b hb
    rw [List.mem_singleton] at hb
    subst hb
    intro hkey
    simp only [actorKeyMatch, Bool.and_eq_true] at hkey
    exact hnc a ha ⟨hkey.1, hkey.2⟩

theorem add_movie_preserves_unique (rows : List MovieRow) (p : MovieParams)
    (h : moviesUnique rows) : moviesUnique (add_movie rows p).2 := by
  rcases add_movie_snd rows p with h2 | ⟨hnc, h2⟩
  · rw [h2]; exact h
  · rw [h2]
    unfold moviesUnique at h ⊢
    rw [List.pairwise_append]
    refine ⟨h, by simp, ?_⟩
    intro a ha b hb
    rw [List.mem_singleton] at hb
    subst hb
    intro hkey
    simp only [movieKeyMatch, Bool.and_eq_true] at hkey
    exact hnc a ha ⟨hkey.1, hkey.2⟩

theorem edit_actor_preserves_unique (rows : List ActorRow) (k : Nat)
    (p : ActorParams) (hid : (rows.map (·.id)).Nodup)
    (h : actorsUnique rows) : actorsUnique (edit_actor rows k p).2 := by
  rcases edit_actor_snd rows k p with h2 | ⟨hall, h2⟩
  · rw [h2]; exact h
  · rw [h2]
    exact pairwise_not_map_update (fun a b => actorKeyMatch a b = true)
      (fun r => r.id)
      (fun r => if r.id = k then
        { r with name := p.name, surname := p.surname } else r)
      k ⟨k, p.name, p.surname⟩
      (fun r hrk => if_neg hrk)
      (fun r hrk => by simp [hrk])
      rows hid h
      (fun r hr hrk => by
        constructor
        · intro hvr
          simp only [actorKeyMatch, Bool.and_eq_true] at hvr
          exact hall r hr ⟨by rw [sqlEq_comm]; exact hvr.1,
            by rw [sqlEq_comm]; exact hvr.2, hrk⟩
        · intro hrv
          simp only [actorKeyMatch, Bool.and_eq_true] at hrv
          exact hall r hr ⟨hrv.1, hrv.2, hrk⟩)

theorem edit_movie_preserves_unique (rows : List MovieRow) (k : Nat)
    (p : MovieParams) (hid : (rows.map (·.id)).Nodup)
    (h : moviesUnique rows) : moviesUnique (edit_movie rows k p).2 := by
  rcases edit_movie_snd rows k p with h2 | ⟨hall, h2⟩
  · rw [h2]; exact h
  · rw [h2]
    exact pairwise_not_map_update (fun a b => movieKeyMatch a b = true)
      (fun r => r.id)
      (fun r => if r.id = k then
        { r with title := p.title, year := p.year, actors := p.actors } else r)
      k ⟨k, p.title, p.year, p.actors⟩
      (fun r hrk => if_neg hrk)
      (fun r hrk => by simp [hrk])
      rows hid h
      (fun r hr hrk => by
        constructor
        · intro hvr
          simp only [movieKeyMatch, Bool.and_eq_true] at hvr
          exact hall r hr ⟨by rw [sqlEq_comm]; exact hvr.1,
            by rw [sqlEq_comm]; exact hvr.2, hrk⟩
        · intro hrv
          simp only [movieKeyMatch, Bool.and_eq_true] at hrv
          exact hall r hr ⟨hrv.1, hrv.2, hrk⟩)

theorem del_actor_preserves_unique (rows : List ActorRow) (k : Nat)
    (h : actorsUnique rows) : actorsUnique (del_actor rows k).2 := by
  simp only [del_actor]
  split <;> exact List.Pairwise.sublist (List.filter_sublist _) h

theorem del_movie_preserves_unique (rows : List MovieRow) (k : Nat)
    (h : moviesUnique rows) : moviesUnique (del_movie rows k).2 := by
  simp only [del_movie]
  split <;> exact List.Pairwise.sublist (List.filter_sublist _) h

theorem del_actors_preserves_unique (rows : List ActorRow) (ids : List Nat)
    (h : actorsUnique rows) : actorsUnique (del_actors rows ids).2 := by
  simp only [del_actors]
  split
  · exact h
  · split <;> exact List.Pairwise.sublist (List.filter_sublist _) h

theorem del_movies_preserves_unique (rows : List MovieRow) (ids : List Nat)
    (h : moviesUnique rows) : moviesUnique (del_movies rows ids).2 := by
  simp only [del_movies]
  split
  · exact h
  · split <;> exact List.Pairwise.sublist (List.filter_sublist _) h

/-- C3 counterexample (for the invariant read with plain equality on
possibly-missing fields): a store whose row 1 already has NULL name and
surname satisfies the invariant; updating row 2 with a body that has both
fields missing succeeds (the duplicate check never matches a NULL parameter)
and leaves rows 1 and 2 sharing the pair (NULL, NULL).  The store has
distinct ids, so this is not an artifact of duplicate ids. -/
theorem c3_counterexample :
    (([⟨1, none, none⟩, ⟨2, some "Robert", some "DeNiro"⟩] :
        List ActorRow).map (fun r => r.id)).Nodup ∧
    actorsPlainUnique [⟨1, none, none⟩, ⟨2, some "Robert", some "DeNiro"⟩] ∧
    (edit_actor [⟨1, none, none⟩, ⟨2, some "Robert", some "DeNiro"⟩] 2
      ⟨none, none⟩).1 = .ok () ∧
    ¬ actorsPlainUnique
      (edit_actor [⟨1, none, none⟩, ⟨2, some "Robert", some "DeNiro"⟩] 2
        ⟨none, none⟩).2 := by
  refine ⟨by decide, ?_, by rfl, ?_⟩
  · unfold actorsPlainUnique
    decide
  · unfold actorsPlainUnique
    decide

/-- C3 (amended): starting from a store with distinct row ids that satisfies
both uniqueness invariants under SQL comparison semantics (a missing/NULL
field never compares equal, as in the handlers' duplicate checks), every
single operation of either catalog yields a store that still satisfies them;
under plain equality of possibly-missing fields, an update writing missing
fields can duplicate the all-NULL pair. -/
theorem c3_unique_invariants_preserved (arows : List ActorRow)
    (mrows : List MovieRow) (p : ActorParams) (mp : MovieParams)
    (ka km : Nat) (ids mids : List Nat)
    (haid : (arows.map (·.id)).Nodup) (hmid : (mrows.map (·.id)).Nodup)
    (hA : actorsUnique arows) (hM : moviesUnique mrows) :
    actorsUnique (add_actor arows p).2 ∧
    actorsUnique (edit_actor arows ka p).2 ∧
    actorsUnique (del_actor arows ka).2 ∧
    actorsUnique (del_actors arows ids).2 ∧
    moviesUnique (add_movie mrows mp).2 ∧
    moviesUnique (edit_movie mrows km mp).2 ∧
    moviesUnique (del_movie mrows km).2 ∧
    moviesUnique (del_movies mrows mids).2 :=
  ⟨add_actor_preserves_unique arows p hA,
   edit_actor_preserves_unique arows ka p haid hA,
   del_actor_preserves_unique arows ka hA,
   del_actors_preserves_unique arows ids hA,
   add_movie_preserves_unique mrows mp hM,
   edit_movie_preserves_unique mrows km mp hmid hM,
   del_movie_preserves_unique mrows km hM,
   del_movies_preserves_unique mrows mids hM⟩

/-- Witness for C3 (amended) at a concrete input: one-row stores, an update
writing NULLs, and singleton batch deletes all preserve the SQL-semantics
invariants. -/
theorem c3_unique_invariants_preserved_witness :
    actorsUnique (add_actor [⟨1, some "Al", some "Pacino"⟩] ⟨none, none⟩).2 ∧
    actorsUnique (edit_actor [⟨1, some "Al", some "Pacino"⟩] 1 ⟨none, none⟩).2 ∧
    actorsUnique (del_actor [⟨1, some "Al", some "Pacino"⟩] 1).2 ∧
    actorsUnique (del_actors [⟨1, some "Al", some "Pacino"⟩] [1]).2 ∧
    moviesUnique (add_movie [⟨1, some "Heat", some 1995, some "DeNiro"⟩]
      ⟨none, none, none⟩).2 ∧
    moviesUnique (edit_movie [⟨1, some "Heat", some 1995, some "DeNiro"⟩] 1
      ⟨none, none, none⟩).2 ∧
    moviesUnique (del_movie [⟨1, some "Heat", some 1995, some "DeNiro"⟩] 1).2 ∧
    moviesUnique (del_movies [⟨1, some "Heat", some 1995, some "DeNiro"⟩]
      [1]).2 :=
  c3_unique_invariants_preserved [⟨1, some "Al", some "Pacino"⟩]
    [⟨1, some "Heat", some 1995, some "DeNiro"⟩] ⟨none, none⟩
    ⟨none, none, none⟩ 1 1 [1] [1] (by decide) (by decide)
    (by unfold actorsUnique; decide) (by unfold moviesUnique; decide)

/-- C1 counterexample: requesting [5, 5] in a store that contains actor 5
deletes every requested id (the post-state is empty), yet the handler
compares the row count 1 against the list length 2 and reports partial
success, not the full-success response the claim demands when every requested
id was deleted. -/
theorem c1_counterexample :
    (∀ i ∈ ([5, 5] : List Nat),
      ∃ r ∈ [ActorRow.mk 5 (some "Al") (some "Pacino")], r.id = i) ∧
    del_actors [⟨5, some "Al", some "Pacino"⟩] [5, 5] =
      (.ok (.partSuccess [5, 5] 1), []) ∧
    (del_actors [⟨5, some "Al", some "Pacino"⟩] [5, 5]).1 ≠
      .ok (.fullSuccess [5, 5]) := by
  refine ⟨by decide, by rfl, by decide⟩

/-- C1 (amended): for every non-empty list of distinct requested ids (in a
store with distinct row ids), batch delete removes exactly the requested ids
present in the store; it reports full success, with deleted_ids echoing the
requested list, iff every requested id was present and hence deleted, and
otherwise reports partial success with actual_deleted_count equal to the
number of rows actually deleted and requested_ids echoing the requested list.
Both catalogs behave identically.  (With repeated ids the handler compares
the deleted-row count against the list length, so it can report partial
success even though every requested id was deleted.) -/
theorem c1_batch_delete (arows : List ActorRow) (mrows : List MovieRow)
    (ids mids : List Nat)
    (hane : ids ≠ []) (hand : ids.Nodup) (haid : (arows.map (·.id)).Nodup)
    (hmne : mids ≠ []) (hmnd : mids.Nodup) (hmid : (mrows.map (·.id)).Nodup) :
    ((∀ i ∈ ids, ∃ r ∈ arows, r.id = i) →
      del_actors arows ids =
        (.ok (.fullSuccess ids),
         arows.filter (fun r => !decide (r.id ∈ ids)))) ∧
    ((¬ ∀ i ∈ ids, ∃ r ∈ arows, r.id = i) →
      del_actors arows ids =
        (.ok (.partSuccess ids (arows.countP (fun r => decide (r.id ∈ ids)))),
         arows.filter (fun r => !decide (r.id ∈ ids)))) ∧
    ((∀ i ∈ mids, ∃ r ∈ mrows, r.id = i) →
      del_movies mrows mids =
        (.ok (.fullSuccess mids),
         mrows.filter (fun r => !decide (r.id ∈ mids)))) ∧
    ((¬ ∀ i ∈ mids, ∃ r ∈ mrows, r.id = i) →
      del_movies mrows mids =
        (.ok (.partSuccess mids
          (mrows.countP (fun r => decide (r.id ∈ mids)))),
         mrows.filter (fun r => !decide (r.id ∈ mids)))) := by
  have hcA : arows.countP (fun r => decide (r.id ∈ ids)) =
      (arows.map (·.id)).countP (fun a => decide (a ∈ ids)) := by
    rw [List.countP_map]
    rfl
  have hcM : mrows.countP (fun r => decide (r.id ∈ mids)) =
      (mrows.map (·.id)).countP (fun a => decide (a ∈ mids)) := by
    rw [List.countP_map]
    rfl
  have hmemA : ∀ i : Nat, (∃ r ∈ arows, r.id = i) ↔ i ∈ arows.map (·.id) := by
    intro i
    constructor
    · rintro ⟨r, hr, rfl⟩; exact List.mem_map_of_mem _ hr
    · intro hmem
      obtain ⟨r, hr, hei⟩ := List.mem_map.mp hmem
      exact ⟨r, hr, hei⟩
  have hmemM : ∀ i : Nat, (∃ r ∈ mrows, r.id = i) ↔ i ∈ mrows.map (·.id) := by
    intro i
    constructor
    · rintro ⟨r, hr, rfl⟩; exact List.mem_map_of_mem _ hr
    · intro hmem
      obtain ⟨r, hr, hei⟩ := List.mem_map.mp hmem
      exact ⟨r, hr, hei⟩
  have hieA : ids.isEmpty = false := by
    cases ids with
    | nil => exact absurd rfl hane
    | cons a t => rfl
  have hieM : mids.isEmpty = false := by
    cases mids with
    | nil => exact absurd rfl hmne
    | cons a t => rfl
  have hleA : arows.countP (fun r => decide (r.id ∈ ids)) ≤ ids.length := by
    rw [hcA]; exact countP_mem_le_length _ _ haid hand
  have hleM : mrows.countP (fun r => decide (r.id ∈ mids)) ≤ mids.length := by
    rw [hcM]; exact countP_mem_le_length _ _ hmid hmnd
  refine ⟨?_, ?_, ?_, ?_⟩
  · intro hfull
    have hnlt : ¬ arows.countP (fun r => decide (r.id ∈ ids)) < ids.length := by
      rw [hcA, (countP_mem_eq_length_iff _ _ haid hand).mpr
        (fun b hb => (hmemA b).mp (hfull b hb))]
      exact lt_irrefl _
    simp only [del_actors]
    rw [hieA]
    rw [if_neg (by simp), if_neg hnlt]
  · intro hpart
    have hne2 : arows.countP (fun r => decide (r.id ∈ ids)) ≠ ids.length := by
      intro he
      apply hpart
      intro i hi
      exact (hmemA i).mpr ((countP_mem_eq_length_iff _ _ haid hand).mp
        (by rw [← hcA]; exact he) i hi)
    have hlt : arows.countP (fun r => decide (r.id ∈ ids)) < ids.length :=
      lt_of_le_of_ne hleA hne2
    simp only [del_actors]
    rw [hieA]
    rw [if_neg (by simp), if_pos hlt]
  · intro hfull
    have hnlt : ¬ mrows.countP (fun r => decide (r.id ∈ mids)) <
        mids.length := by
      rw [hcM, (countP_mem_eq_length_iff _ _ hmid hmnd).mpr
        (fun b hb => (hmemM b).mp (hfull b hb))]
      exact lt_irrefl _
    simp only [del_movies]
    rw [hieM]
    rw [if_neg (by simp), if_neg hnlt]
  · intro hpart
    have hne2 : mrows.countP (fun r => decide (r.id ∈ mids)) ≠
        mids.length := by
      intro he
      apply hpart
      intro i hi
      exact (hmemM i).mpr ((countP_mem_eq_length_iff _ _ hmid hmnd).mp
        (by rw [← hcM]; exact he) i hi)
    have hlt : mrows.countP (fun r => decide (r.id ∈ mids)) < mids.length :=
      lt_of_le_of_ne hleM hne2
    simp only [del_movies]
    rw [hieM]
    rw [if_neg (by simp), if_pos hlt]

/-- Witness for C1 (amended) at the spec's own example: requesting [5, 6, 10]
where only actors 5 and 10 exist yields partial success with
actual_deleted_count 2 and requested_ids [5, 6, 10]; a movie batch delete of
an id that exists yields full success. -/
theorem c1_batch_delete_witness :
    ([5, 6, 10] : List Nat).Nodup ∧
    del_actors [⟨5, some "Al", some "Pacino"⟩, ⟨10, some "Robert", some "DeNiro"⟩]
      [5, 6, 10] = (.ok (.partSuccess [5, 6, 10] 2), []) ∧
    del_movies [⟨1, some "Heat", some 1995, some "DeNiro"⟩] [1] =
      (.ok (.fullSuccess [1]), []) := by
  have h := c1_batch_delete
    [⟨5, some "Al", some "Pacino"⟩, ⟨10, some "Robert", some "DeNiro"⟩]
    [⟨1, some "Heat", some 1995, some "DeNiro"⟩] [5, 6, 10] [1]
    (by decide) (by decide) (by decide) (by decide) (by decide) (by decide)
  refine ⟨by decide, ?_, ?_⟩
  · exact (h.2.1 (by decide)).trans (by rfl)
  · exact (h.2.2.1 (by decide)).trans (by rfl)

end MovieDB
